import Mathlib

/-!
Verification of the multi-source geospatial-temporal ingestion and query
engine of the gemelo_digital repository.  Each Python operation from
`apps/api/main.py`, `apps/ingest/ingest.py`, `apps/nasa_service/nasa_service.py`
and `apps/esa_lima_service/esa_lima_service.py` relevant to the stated claims
is shallowly embedded as an executable Lean definition; machine timestamps are
modelled as integers (UNIX epoch seconds), numeric values and coordinates as
rationals, and fallible external effects (database queries) as `Except`.
-/

set_option autoImplicit false

namespace Gemelo

/-! ## Numeric aggregate helpers (SQL COUNT/MIN/MAX/AVG over a column) -/

/-- SQL `SUM` over a list of rational values. -/
def rsum (l : List ℚ) : ℚ := l.foldr (fun a b => a + b) 0

/-- SQL `MIN` over a list of values: `NULL` (`none`) on the empty set. -/
def rmin : List ℚ → Option ℚ
  | [] => none
  | a :: l =>
    some (match rmin l with
      | none => a
      | some m => min a m)

/-- SQL `MAX` over a list of values: `NULL` (`none`) on the empty set. -/
def rmax : List ℚ → Option ℚ
  | [] => none
  | a :: l =>
    some (match rmax l with
      | none => a
      | some m => max a m)

/-- SQL `AVG` over a list of values: `NULL` (`none`) on the empty set,
otherwise the arithmetic mean. -/
def ravg (l : List ℚ) : Option ℚ :=
  if l.length = 0 then none else some (rsum l / (l.length : ℚ))

theorem rsum_nil : rsum [] = 0 := rfl

theorem rsum_cons (a : ℚ) (l : List ℚ) : rsum (a :: l) = a + rsum l := rfl

theorem rsum_append (l₁ l₂ : List ℚ) : rsum (l₁ ++ l₂) = rsum l₁ + rsum l₂ := by
  induction l₁ with
  | nil => simp [rsum_nil, rsum]
  | cons a l ih => simp [rsum_cons, ih]; ring

theorem rmin_isSome_iff (l : List ℚ) : (rmin l).isSome ↔ l ≠ [] := by
  cases l <;> simp [rmin]

theorem rmax_isSome_iff (l : List ℚ) : (rmax l).isSome ↔ l ≠ [] := by
  cases l <;> simp [rmax]

theorem rmin_le_mem (l : List ℚ) (m : ℚ) (hm : rmin l = some m) :
    ∀ x ∈ l, m ≤ x := by
  induction l generalizing m with
  | nil => simp [rmin] at hm
  | cons a l ih =>
    intro x hx
    rw [List.mem_cons] at hx
    simp only [rmin] at hm
    cases hrec : rmin l with
    | none =>
      rw [hrec] at hm
      simp only [Option.some.injEq] at hm
      have hl : l = [] := by
        by_contra hne
        have hs := (rmin_isSome_iff l).mpr hne
        rw [hrec] at hs; simp at hs
      subst hl
      rcases hx with hx | hx
      · subst hx; exact le_of_eq hm.symm
      · simp at hx
    | some m₀ =>
      rw [hrec] at hm
      simp only [Option.some.injEq] at hm
      rcases hx with hx | hx
      · subst hx; rw [← hm]; exact min_le_left _ _
      · calc m ≤ m₀ := by rw [← hm]; exact min_le_right _ _
        _ ≤ x := ih m₀ hrec x hx

theorem mem_le_rmax (l : List ℚ) (m : ℚ) (hm : rmax l = some m) :
    ∀ x ∈ l, x ≤ m := by
  induction l generalizing m with
  | nil => simp [rmax] at hm
  | cons a l ih =>
    intro x hx
    rw [List.mem_cons] at hx
    simp only [rmax] at hm
    cases hrec : rmax l with
    | none =>
      rw [hrec] at hm
      simp only [Option.some.injEq] at hm
      have hl : l = [] := by
        by_contra hne
        have hs := (rmax_isSome_iff l).mpr hne
        rw [hrec] at hs; simp at hs
      subst hl
      rcases hx with hx | hx
      · subst hx; exact le_of_eq hm
      · simp at hx
    | some m₀ =>
      rw [hrec] at hm
      simp only [Option.some.injEq] at hm
      rcases hx with hx | hx
      · subst hx; rw [← hm]; exact le_max_left _ _
      · calc x ≤ m₀ := ih m₀ hrec x hx
        _ ≤ m := by rw [← hm]; exact le_max_right _ _

theorem card_mul_le_rsum (l : List ℚ) (m : ℚ) (h : ∀ x ∈ l, m ≤ x) :
    (l.length : ℚ) * m ≤ rsum l := by
  induction l with
  | nil => simp [rsum_nil]
  | cons a l ih =>
    have ha : m ≤ a := h a (by simp)
    have hl : ∀ x ∈ l, m ≤ x := fun x hx => h x (by simp [hx])
    simp only [List.length_cons, rsum_cons]
    push_cast
    have := ih hl
    nlinarith

theorem rsum_le_card_mul (l : List ℚ) (m : ℚ) (h : ∀ x ∈ l, x ≤ m) :
    rsum l ≤ (l.length : ℚ) * m := by
  induction l with
  | nil => simp [rsum_nil]
  | cons a l ih =>
    have ha : a ≤ m := h a (by simp)
    have hl : ∀ x ∈ l, x ≤ m := fun x hx => h x (by simp [hx])
    simp only [List.length_cons, rsum_cons]
    push_cast
    have := ih hl
    nlinarith

/-- For a nonempty list the arithmetic mean lies between the minimum and the
maximum of the values. -/
theorem rmin_le_ravg_le_rmax (l : List ℚ) (mn mx a : ℚ)
    (hmn : rmin l = some mn) (hmx : rmax l = some mx) (ha : ravg l = some a) :
    mn ≤ a ∧ a ≤ mx := by
  have hne : l ≠ [] := by
    have := (rmin_isSome_iff l).mp (by simp [hmn])
    exact this
  have hlen : 0 < l.length := List.length_pos.mpr hne
  have hlenQ : (0 : ℚ) < (l.length : ℚ) := by exact_mod_cast hlen
  have havg : a = rsum l / (l.length : ℚ) := by
    simp only [ravg] at ha
    rw [if_neg (by omega)] at ha
    simp only [Option.some.injEq] at ha
    exact ha.symm
  constructor
  · have hlow := card_mul_le_rsum l mn (rmin_le_mem l mn hmn)
    rw [havg, le_div_iff₀ hlenQ]
    nlinarith
  · have hhigh := rsum_le_card_mul l mx (mem_le_rmax l mx hmx)
    rw [havg, div_le_iff₀ hlenQ]
    nlinarith

/-! ## Data model

`Obs` mirrors a row of `gd.nasa_data` / `gd.esa_data` / `gd.lima_data`
(the per-source Observation Stores); `Reading` mirrors a row of
`gd.timeseries` (the Time-Series Store).  Values and coordinates are
rationals, timestamps are UNIX epoch seconds. -/

structure Obs where
  timestamp : ℤ
  dataset : String
  parameter : String
  value : ℚ
  latitude : ℚ
  longitude : ℚ
deriving DecidableEq

structure Reading where
  time : ℤ
  sensor_id : String
  value : ℚ
deriving DecidableEq

/-! ## Case-insensitive substring match (SQL ILIKE with percent wildcards) -/

/-- Does the text (second argument) start with the pattern (first argument)? -/
def listStarts : List Char → List Char → Bool
  | [], _ => true
  | _ :: _, [] => false
  | p :: ps, c :: cs => p == c && listStarts ps cs

/-- Does the pattern occur as a contiguous run inside the text? -/
def listContains (pat : List Char) : List Char → Bool
  | [] => listStarts pat []
  | c :: cs => listStarts pat (c :: cs) || listContains pat cs

/-- SQL field ILIKE percent-pat-percent as used by `integrated_analysis` in
`apps/api/main.py`: the pattern occurs in the field up to letter case. -/
def ilike (field pat : String) : Bool :=
  listContains (pat.toList.map Char.toLower) (field.toList.map Char.toLower)

/-! ## Cross-Source Aggregator (`integrated_analysis`, `apps/api/main.py`) -/

/-- One row of the per-source aggregate query
`SELECT source, COUNT, AVG, MIN, MAX ... WHERE parameter ILIKE $1 AND timestamp >= $2`. -/
structure SourceStats where
  source : String
  count : ℕ
  avg_value : Option ℚ
  min_value : Option ℚ
  max_value : Option ℚ
deriving DecidableEq

/-- The `WHERE` clause of each per-source query in `integrated_analysis`:
parameter ILIKE percent-pat-percent AND timestamp >= cutoff. -/
def obsMatch (pat : String) (cutoff : ℤ) (r : Obs) : Bool :=
  ilike r.parameter pat && decide (cutoff ≤ r.timestamp)

/-- The aggregate row one source query of `integrated_analysis` computes. -/
def sourceStats (src pat : String) (cutoff : ℤ) (rows : List Obs) : SourceStats :=
  let vals := (rows.filter (obsMatch pat cutoff)).map Obs.value
  ⟨src, vals.length, ravg vals, rmin vals, rmax vals⟩

/-- A database-level failure of one `conn.fetchrow` call (asyncpg raising). -/
inductive DbErr
  | queryFailed (msg : String)
deriving DecidableEq

/-- The tables `integrated_analysis` can see.  Each Observation Store query
either returns its rows or raises (`Except`); the Time-Series Store content is
part of the state so that we can observe whether the operation reads it. -/
structure IntegratedDb where
  nasa_data : Except DbErr (List Obs)
  esa_data : Except DbErr (List Obs)
  lima_data : Except DbErr (List Obs)
  timeseries : List Reading

/-- The JSON body built by `integrated_analysis`: the filtered per-source
rows and `total_data_points`. -/
structure IntegratedOut where
  sources : List SourceStats
  total_data_points : ℕ
deriving DecidableEq

/-- `GET /analysis/integrated/{parameter}` (`integrated_analysis`,
`apps/api/main.py` lines 392-438): fetch the NASA, ESA and LIMA aggregate
rows in that order (each fetch may raise, and the handler has no
`try/except` around them, only a `finally` closing the connection, so a
raise propagates), keep the rows with `count > 0`, and sum their counts.
`cutoff = now - hours_back * 3600` models
`datetime.now() - timedelta(hours=hours_back)`. -/
def integrated_analysis (db : IntegratedDb) (parameter : String)
    (hours_back now : ℤ) : Except DbErr IntegratedOut := do
  let cutoff := now - hours_back * 3600
  let nasaRows ← db.nasa_data
  let nasa_stats := sourceStats "NASA" parameter cutoff nasaRows
  let esaRows ← db.esa_data
  let esa_stats := sourceStats "ESA" parameter cutoff esaRows
  let limaRows ← db.lima_data
  let lima_stats := sourceStats "LIMA" parameter cutoff limaRows
  let results := [nasa_stats, esa_stats, lima_stats].filter
    (fun s => decide (0 < s.count))
  pure ⟨results, (results.map SourceStats.count).foldr (fun a b => a + b) 0⟩

/-! ## NASA spatial average (`nasa_spatial_average`, `apps/api/main.py`) -/

/-- The fixed Chancay-region `BoundingBox` filter of `nasa_spatial_average`:
`latitude BETWEEN -11.65 AND -11.50 AND longitude BETWEEN -77.35 AND -77.20`
(the constants of `BoundingBox` in `apps/nasa_service/nasa_service.py`). -/
def inChancayBBox (r : Obs) : Bool :=
  decide ((-11.65 : ℚ) ≤ r.latitude) && decide (r.latitude ≤ (-11.50 : ℚ)) &&
  decide ((-77.35 : ℚ) ≤ r.longitude) && decide (r.longitude ≤ (-77.20 : ℚ))

/-- The `WHERE` clause of `nasa_spatial_average`: dataset and parameter
equality, `timestamp >= cutoff`, and the bounding-box restriction. -/
def spatialAvgFilter (dataset parameter : String) (cutoff : ℤ) (r : Obs) : Bool :=
  r.dataset == dataset && r.parameter == parameter &&
  decide (cutoff ≤ r.timestamp) && inChancayBBox r

/-- The rows actually aggregated by `nasa_spatial_average`. -/
def spatialAvgRows (rows : List Obs) (dataset parameter : String)
    (hours_back now : ℤ) : List Obs :=
  rows.filter (spatialAvgFilter dataset parameter (now - hours_back * 3600))

/-- The `spatial_stats` aggregate of `nasa_spatial_average` (the `STDDEV`
column involves a real square root and is referenced by no claim, so it is
not carried in the rational model). -/
structure SpatialStats where
  count : ℕ
  avg_value : Option ℚ
  min_value : Option ℚ
  max_value : Option ℚ
deriving DecidableEq

/-- `GET /nasa/analysis/spatial-average/{dataset}/{parameter}`
(`apps/api/main.py` lines 250-276). -/
def nasa_spatial_average (rows : List Obs) (dataset parameter : String)
    (hours_back now : ℤ) : SpatialStats :=
  let vals := (spatialAvgRows rows dataset parameter hours_back now).map Obs.value
  ⟨vals.length, ravg vals, rmin vals, rmax vals⟩

/-! ## Claim C1 -/

/-- An observation whose `parameter` contains "temperature" but whose
timestamp lies far after the query instant. -/
def exC1Future : Obs := ⟨1000000, "MODIS_LST", "land_surface_temperature", 25, -11.6, -77.3⟩

/-- A sensor reading inside the query window whose sensor id contains
"temperature". -/
def exC1Reading : Reading := ⟨50, "harbor_temperature", 19⟩

instance {ε α : Type} [DecidableEq ε] [DecidableEq α] : DecidableEq (Except ε α) :=
  fun a b =>
    match a, b with
    | .ok x, .ok y =>
      if h : x = y then .isTrue (h ▸ rfl) else .isFalse (fun hc => h (Except.ok.inj hc))
    | .error x, .error y =>
      if h : x = y then .isTrue (h ▸ rfl) else .isFalse (fun hc => h (Except.error.inj hc))
    | .ok _, .error _ => .isFalse (fun hc => Except.noConfusion hc)
    | .error _, .ok _ => .isFalse (fun hc => Except.noConfusion hc)

def exC1DbTs : IntegratedDb := ⟨.ok [exC1Future], .ok [], .ok [], [exC1Reading]⟩

def exC1DbNoTs : IntegratedDb := ⟨.ok [exC1Future], .ok [], .ok [], []⟩

/-- C1, counterexample: at `parameter = "temperature"`, `hours_back = 24`,
`now = 100`, the result of `integrated_analysis` is identical whether or not
the Time-Series Store holds an in-window reading whose id contains the
substring — the Time-Series Store is never queried, contradicting the claim
that each registered source including the Time-Series Store is aggregated.
Moreover the one NASA row counted has `timestamp = 1000000 > now = 100`,
i.e. rows beyond the upper end of the window `[now - 24h, now]` are counted,
because the code only applies the lower bound `timestamp >= cutoff`. -/
theorem integrated_analysis_ignores_timeseries_counterexample :
    integrated_analysis exC1DbTs "temperature" 24 100 =
      integrated_analysis exC1DbNoTs "temperature" 24 100 ∧
    (integrated_analysis exC1DbTs "temperature" 24 100).toOption.map
        (fun o => (o.sources.map SourceStats.source,
                   o.sources.map SourceStats.count, o.total_data_points)) =
      some (["NASA"], [1], 1) ∧
    ((100 : ℤ) < exC1Future.timestamp ∧
      obsMatch "temperature" (100 - 24 * 3600) exC1Future = true) ∧
    ((100 : ℤ) - 24 * 3600 ≤ exC1Reading.time ∧ exC1Reading.time ≤ 100 ∧
      ilike exC1Reading.sensor_id "temperature" = true) := by
  refine ⟨rfl, by decide, by decide, by decide⟩

/-- C1 (amended): whenever all three Observation Store queries succeed,
`integrated_analysis` returns (for any Time-Series Store content) the NASA,
ESA, LIMA aggregate rows in that fixed order restricted to those with
`count > 0`; `total_data_points` is the sum of the included counts; and each
count of a source is the number of its rows whose `parameter` contains the
substring case-insensitively and whose timestamp is at or after the cutoff
`now - hours_back * 3600` (no upper bound). -/
theorem integrated_analysis_per_source_amended
    (nasa esa lima : List Obs) (ts : List Reading) (parameter : String)
    (hours_back now : ℤ) :
    ∃ out, integrated_analysis ⟨.ok nasa, .ok esa, .ok lima, ts⟩
        parameter hours_back now = .ok out ∧
      out.sources = [sourceStats "NASA" parameter (now - hours_back * 3600) nasa,
                     sourceStats "ESA" parameter (now - hours_back * 3600) esa,
                     sourceStats "LIMA" parameter (now - hours_back * 3600) lima].filter
                      (fun s => decide (0 < s.count)) ∧
      out.sources.all (fun s => decide (0 < s.count)) = true ∧
      out.total_data_points =
        (out.sources.map SourceStats.count).foldr (fun a b => a + b) 0 ∧
      ∀ src pat cutoff rows, (sourceStats src pat cutoff rows).count =
          (rows.filter (obsMatch pat cutoff)).length ∧
        (sourceStats src pat cutoff rows).source = src := by
  refine ⟨_, rfl, rfl, ?_, rfl, fun src pat cutoff rows => ⟨by simp [sourceStats], rfl⟩⟩
  rw [List.all_eq_true]
  intro s hs
  rw [List.mem_filter] at hs
  exact hs.2

/-! ## Claim C2 -/

/-- C2 (amended): `integrated_analysis` has no per-source error recovery: if
a source query raises, the error propagates and the whole call fails (the
first failing fetch in the order NASA, ESA, LIMA wins), and conversely a
successful call implies every source query succeeded. -/
theorem integrated_analysis_source_error_aborts (db : IntegratedDb)
    (parameter : String) (hours_back now : ℤ) :
    (∀ er, db.nasa_data = .error er →
        integrated_analysis db parameter hours_back now = .error er) ∧
    (∀ er rows, db.nasa_data = .ok rows → db.esa_data = .error er →
        integrated_analysis db parameter hours_back now = .error er) ∧
    (∀ er rows₁ rows₂, db.nasa_data = .ok rows₁ → db.esa_data = .ok rows₂ →
        db.lima_data = .error er →
        integrated_analysis db parameter hours_back now = .error er) ∧
    (∀ out, integrated_analysis db parameter hours_back now = .ok out →
        (∃ l, db.nasa_data = .ok l) ∧ (∃ l, db.esa_data = .ok l) ∧
        (∃ l, db.lima_data = .ok l)) := by
  obtain ⟨n, e, l, ts⟩ := db
  refine ⟨fun er h => ?_, fun er rows h₁ h₂ => ?_,
    fun er rows₁ rows₂ h₁ h₂ h₃ => ?_, fun out h => ?_⟩
  · simp only at h; subst h
    simp [integrated_analysis, bind, Except.bind]
  · simp only at h₁ h₂; subst h₁; subst h₂
    simp [integrated_analysis, bind, Except.bind]
  · simp only at h₁ h₂ h₃; subst h₁; subst h₂; subst h₃
    simp [integrated_analysis, bind, Except.bind]
  · cases n with
    | error er => simp [integrated_analysis, bind, Except.bind] at h
    | ok rows₁ =>
      cases e with
      | error er => simp [integrated_analysis, bind, Except.bind] at h
      | ok rows₂ =>
        cases l with
        | error er => simp [integrated_analysis, bind, Except.bind] at h
        | ok rows₃ => exact ⟨⟨rows₁, rfl⟩, ⟨rows₂, rfl⟩, ⟨rows₃, rfl⟩⟩

def exC2Db : IntegratedDb :=
  ⟨.error (.queryFailed "nasa query failed"), .ok [],
   .ok [⟨50, "LIMA_AIR_QUALITY", "pm25_temperature", 30, -12.0, -77.0⟩], []⟩

/-- C2, witness for `integrated_analysis_source_error_aborts`. -/
theorem integrated_analysis_source_error_aborts_witness :
    integrated_analysis exC2Db "temperature" 24 100 =
      .error (.queryFailed "nasa query failed") :=
  (integrated_analysis_source_error_aborts exC2Db "temperature" 24 100).1
    (.queryFailed "nasa query failed") rfl

/-- C2, counterexample: with the NASA query raising while the LIMA store holds
a matching in-window row, the whole call returns the error (its `toOption` is
`none`): no degraded aggregate over the remaining sources is produced,
contradicting the claim that the operation never fails because of a single
source. -/
theorem integrated_analysis_source_error_counterexample :
    integrated_analysis exC2Db "temperature" 24 100 =
      .error (.queryFailed "nasa query failed") ∧
    (integrated_analysis exC2Db "temperature" 24 100).toOption = none ∧
    obsMatch "temperature" (100 - 24 * 3600)
      ⟨50, "LIMA_AIR_QUALITY", "pm25_temperature", 30, -12.0, -77.0⟩ = true := by
  refine ⟨rfl, rfl, by decide⟩

/-! ## Claim C9 -/

/-- C9: the rows aggregated by `nasa_spatial_average` are exactly the stored
rows with the requested dataset and parameter, timestamp at or after the
cutoff, and coordinates inside the fixed Chancay bounding box
(latitude in `[-11.65, -11.50]`, longitude in `[-77.35, -77.20]`); the
reported count is the number of those rows. -/
theorem nasa_spatial_average_bbox_exact
    (rows : List Obs) (dataset parameter : String) (hours_back now : ℤ) :
    (∀ r, r ∈ spatialAvgRows rows dataset parameter hours_back now ↔
        (r ∈ rows ∧ r.dataset = dataset ∧ r.parameter = parameter ∧
         now - hours_back * 3600 ≤ r.timestamp ∧
         (-11.65 : ℚ) ≤ r.latitude ∧ r.latitude ≤ (-11.50 : ℚ) ∧
         (-77.35 : ℚ) ≤ r.longitude ∧ r.longitude ≤ (-77.20 : ℚ))) ∧
    (nasa_spatial_average rows dataset parameter hours_back now).count =
      (spatialAvgRows rows dataset parameter hours_back now).length := by
  constructor
  · intro r
    simp [spatialAvgRows, spatialAvgFilter, inChancayBBox, List.mem_filter,
      Bool.and_eq_true, decide_eq_true_eq, beq_iff_eq, and_assoc]
  · simp [nasa_spatial_average]

/-! ## Time-Series Store stats (`ts_stats`, `apps/api/main.py` lines 99-126) -/

/-- The JSON body of `GET /analysis/timeseries/{sensor_id}/stats`. -/
structure AggregateResult where
  count : ℕ
  min : Option ℚ
  max : Option ℚ
  avg : Option ℚ
deriving DecidableEq

/-- The `WHERE` clause built by `ts_stats`: `sensor_id = $1`, plus
`time >= start` / `time <= end` for each bound present (a bound whose
string failed `parse_dt` is silently dropped, so bounds arrive here as
`Option`). -/
def tsStatsFilter (sensor_id : String) (start? end? : Option ℤ) (r : Reading) : Bool :=
  r.sensor_id == sensor_id &&
  (match start? with
    | none => true
    | some a => decide (a ≤ r.time)) &&
  (match end? with
    | none => true
    | some b => decide (r.time ≤ b))

/-- The rows `ts_stats` aggregates over. -/
def tsStatsRows (db : List Reading) (sensor_id : String)
    (start? end? : Option ℤ) : List Reading :=
  db.filter (tsStatsFilter sensor_id start? end?)

/-- `SELECT COUNT(*), MIN(value), MAX(value), AVG(value)` over the filtered
range (SQL aggregates of the empty set are `NULL`). -/
def ts_stats (db : List Reading) (sensor_id : String)
    (start? end? : Option ℤ) : AggregateResult :=
  let vals := (tsStatsRows db sensor_id start? end?).map Reading.value
  ⟨vals.length, rmin vals, rmax vals, ravg vals⟩

/-- C5: `ts_stats` reports the number of matching rows; with no matching row
it returns `count = 0` and `NULL` min, max and avg; with at least one
matching row the minimum, maximum and arithmetic mean are all present and
satisfy `min ≤ avg ≤ max`. -/
theorem ts_stats_zero_null_and_bounds (db : List Reading) (sensor_id : String)
    (start? end? : Option ℤ) :
    (ts_stats db sensor_id start? end?).count =
      (tsStatsRows db sensor_id start? end?).length ∧
    ((ts_stats db sensor_id start? end?).count = 0 →
      ts_stats db sensor_id start? end? = ⟨0, none, none, none⟩) ∧
    (0 < (ts_stats db sensor_id start? end?).count →
      ∃ mn mx a, (ts_stats db sensor_id start? end?).min = some mn ∧
        (ts_stats db sensor_id start? end?).max = some mx ∧
        (ts_stats db sensor_id start? end?).avg = some a ∧
        mn ≤ a ∧ a ≤ mx) := by
  refine ⟨by simp [ts_stats], ?_, ?_⟩
  · intro h
    simp only [ts_stats, List.length_map] at h ⊢
    rw [List.length_eq_zero] at h
    simp [h, rmin, rmax, ravg]
  · intro h
    simp only [ts_stats, List.length_map] at h ⊢
    set vals := (tsStatsRows db sensor_id start? end?).map Reading.value with hv
    have hne : vals ≠ [] := by
      intro hnil
      rw [hv, List.map_eq_nil_iff] at hnil
      rw [hnil] at h
      simp at h
    obtain ⟨mn, hmn⟩ := Option.isSome_iff_exists.mp ((rmin_isSome_iff vals).mpr hne)
    obtain ⟨mx, hmx⟩ := Option.isSome_iff_exists.mp ((rmax_isSome_iff vals).mpr hne)
    have hlen : vals.length ≠ 0 := by
      intro h0; exact hne (List.length_eq_zero.mp h0)
    have ha : ravg vals = some (rsum vals / (vals.length : ℚ)) := by
      simp [ravg, hlen]
    obtain ⟨h₁, h₂⟩ := rmin_le_ravg_le_rmax vals mn mx _ hmn hmx ha
    exact ⟨mn, mx, _, hmn, hmx, ha, h₁, h₂⟩

def exC5Db : List Reading := [⟨1, "harbor_temp", 2⟩, ⟨2, "harbor_temp", 4⟩, ⟨3, "other", 100⟩]

/-- C5, witness for `ts_stats_zero_null_and_bounds`: on a store with two
readings for the sensor the nonzero branch applies, and for an unknown
sensor the zero branch gives the all-`NULL` aggregate. -/
theorem ts_stats_zero_null_and_bounds_witness :
    ts_stats exC5Db "nobody" none none = ⟨0, none, none, none⟩ ∧
    (∃ mn mx a, (ts_stats exC5Db "harbor_temp" none none).min = some mn ∧
      (ts_stats exC5Db "harbor_temp" none none).max = some mx ∧
      (ts_stats exC5Db "harbor_temp" none none).avg = some a ∧
      mn ≤ a ∧ a ≤ mx) :=
  ⟨(ts_stats_zero_null_and_bounds exC5Db "nobody" none none).2.1 (by decide),
   (ts_stats_zero_null_and_bounds exC5Db "harbor_temp" none none).2.2 (by decide)⟩

/-! ## Time-Series append (`insert_ts`, `apps/api/main.py` lines 175-197) -/

/-- Python `str.isdigit` on the payloads at hand: nonempty and every
character a decimal digit. -/
def isDigitStr (s : String) : Bool :=
  !s.toList.isEmpty && s.toList.all Char.isDigit

/-- Python `int` on a digit-only string. -/
def digitsToNat (s : String) : ℕ :=
  s.toList.foldl (fun n c => n * 10 + (c.toNat - 48)) 0

/-- Python replace on the character Z, rewriting it to the offset 00:00 text:
every occurrence is replaced. -/
def replaceZ (s : String) : String :=
  ⟨s.toList.foldr
    (fun c acc =>
      if c = 'Z' then '+' :: '0' :: '0' :: ':' :: '0' :: '0' :: acc
      else c :: acc) []⟩

/-- Python endswith applied with the single character Z. -/
def endsWithZ (s : String) : Bool := s.toList.getLast? == some 'Z'

/-- `datetime.fromtimestamp(n)`: the absolute instant at UNIX second `n`
(instants are modelled directly as epoch seconds). -/
def fromtimestamp (n : ℕ) : ℤ := (n : ℤ)

/-- The timestamp-resolution logic of `insert_ts`: a digit-only string goes
through `int` and `fromtimestamp`; otherwise the string (with a trailing `Z`
rewritten to `+00:00`) goes to `datetime.fromisoformat`, abstracted as the
external parser `iso` (returning `none` where Python raises; the enclosing
`try/except` turns any raise into `parsed_time = None`).  The function is
total: no input makes it propagate a parse error. -/
def insert_ts_parse (iso : String → Option ℤ) (t : String) : Option ℤ :=
  if isDigitStr t then some (fromtimestamp (digitsToNat t))
  else iso (if endsWithZ t then replaceZ t else t)

/-- The value stored in the `time` column:
`COALESCE($1, now())` with `$1` the parsed timestamp. -/
def insert_ts_time (iso : String → Option ℤ) (now : ℤ) (time? : Option String) : ℤ :=
  match time? with
  | none => now
  | some t => (insert_ts_parse iso t).getD now

/-- C4: for every timestamp string: a digit-only string resolves to the
absolute instant at that whole UNIX second; a non-digit string ending in `Z`
is handed to the ISO-8601 parser with the `Z` rewritten to offset `+00:00`;
and whenever both parses fail the stored time falls back to the ingestion
wall clock `now` — the resolution function is total, so no parse error ever
reaches the caller. -/
theorem insert_ts_timestamp_spec (iso : String → Option ℤ) (now : ℤ) :
    (∀ s, isDigitStr s = true →
      insert_ts_parse iso s = some (fromtimestamp (digitsToNat s)) ∧
      insert_ts_time iso now (some s) = fromtimestamp (digitsToNat s)) ∧
    (∀ s, isDigitStr s = false → endsWithZ s = true →
      insert_ts_parse iso s = iso (replaceZ s)) ∧
    (∀ s, insert_ts_parse iso s = none → insert_ts_time iso now (some s) = now) ∧
    insert_ts_time iso now none = now := by
  refine ⟨fun s h => ?_, fun s h₁ h₂ => ?_, fun s h => ?_, rfl⟩
  · constructor
    · simp [insert_ts_parse, h]
    · simp [insert_ts_time, insert_ts_parse, h]
  · simp [insert_ts_parse, h₁, h₂]
  · simp [insert_ts_time, h]

/-- A concrete stand-in for `datetime.fromisoformat`, defined on the one
rewritten ISO string exercised below. -/
def exIso : String → Option ℤ :=
  fun s => if s = "2024-01-01T00:00:00+00:00" then some 1704067200 else none

/-- C4, witness for `insert_ts_timestamp_spec`: "1700000000" resolves to
UNIX second 1700000000; "2024-01-01T00:00:00Z" reaches the ISO parser as
"2024-01-01T00:00:00+00:00" (midnight UTC); "not-a-date" falls back to the
ingestion time 777. -/
theorem insert_ts_timestamp_spec_witness :
    insert_ts_parse exIso "1700000000" = some 1700000000 ∧
    insert_ts_parse exIso "2024-01-01T00:00:00Z" = some 1704067200 ∧
    insert_ts_time exIso 777 (some "not-a-date") = 777 := by
  refine ⟨?_, ?_, ?_⟩
  · have h := ((insert_ts_timestamp_spec exIso 777).1 "1700000000" (by decide)).1
    rw [h]; decide
  · have h := (insert_ts_timestamp_spec exIso 777).2.1 "2024-01-01T00:00:00Z"
      (by decide) (by decide)
    rw [h]; decide
  · exact (insert_ts_timestamp_spec exIso 777).2.2.1 "not-a-date" (by decide)

/-! ## Feature Store (`apps/api/main.py`) -/

/-- A row of `gd.layers` (the fields the claims touch). -/
structure Layer where
  id : ℕ
  name : String
deriving DecidableEq

/-- A row of `gd.features` (the fields the claims touch). -/
structure Feature where
  layer_id : ℕ
  geom_wkt : String
deriving DecidableEq

structure FeatureDb where
  layers : List Layer
  features : List Feature
deriving DecidableEq

/-- How a Query Facade call surfaces to the HTTP caller: a body, a raised
`HTTPException` with its distinguishing status code, or an exception the
handler does not catch, which the framework reports as an undistinguished
internal error (HTTP 500 with no operation-specific status). -/
inductive ApiResult (α : Type)
  | ok (a : α)
  | httpError (status : ℕ)
  | internalError
deriving DecidableEq

/-- `SELECT id FROM gd.layers WHERE name=$1` (first match). -/
def findLayer (db : FeatureDb) (name : String) : Option Layer :=
  db.layers.find? (fun l => l.name == name)

/-- `GET /analysis/layer/{name}/area` (`layer_area`, lines 58-74): 404 when
the layer is unresolved, else `COALESCE(SUM(ST_Area(geom::geography)), 0)`
over the features of the layer.  `area` stands for the geodesic area measure of
the external Geometry Service (PostGIS `ST_Area` on `geography`). -/
def layer_area (area : String → ℚ) (db : FeatureDb) (name : String) : ApiResult ℚ :=
  match findLayer db name with
  | none => .httpError 404
  | some l =>
    .ok (rsum ((db.features.filter (fun f => f.layer_id == l.id)).map
      (fun f => area f.geom_wkt)))

/-- `POST /features` (`insert_feature`, lines 140-154): 400 when the layer is
unresolved, else append the feature row. -/
def insert_feature (db : FeatureDb) (layer geom_wkt : String) : ApiResult FeatureDb :=
  match findLayer db layer with
  | none => .httpError 400
  | some l => .ok ⟨db.layers, db.features ++ [⟨l.id, geom_wkt⟩]⟩

theorem rsum_nonneg (l : List ℚ) (h : ∀ x ∈ l, 0 ≤ x) : 0 ≤ rsum l := by
  induction l with
  | nil => simp [rsum_nil]
  | cons a l ih =>
    have ha := h a (by simp)
    have hl := ih (fun x hx => h x (by simp [hx]))
    rw [rsum_cons]
    linarith

/-- C6: with a geodesic area measure that is nonnegative on every geometry
(the Geometry Service contract), `layer_area` answers 404 on an unresolved
layer name, 0 on a layer with no features, a nonnegative total otherwise,
and inserting a feature through `insert_feature` never decreases any
total layer area. -/
theorem layer_area_monotone (area : String → ℚ) (db : FeatureDb)
    (name layer geom : String) (hpos : ∀ g, 0 ≤ area g) :
    (findLayer db name = none → layer_area area db name = .httpError 404) ∧
    (∀ l, findLayer db name = some l →
      db.features.filter (fun f => f.layer_id == l.id) = [] →
      layer_area area db name = .ok 0) ∧
    (∀ q, layer_area area db name = .ok q → 0 ≤ q) ∧
    (∀ db₂ q, insert_feature db layer geom = .ok db₂ →
      layer_area area db name = .ok q →
      ∃ q₂, layer_area area db₂ name = .ok q₂ ∧ q ≤ q₂) := by
  refine ⟨fun h => ?_, fun l hl hnil => ?_, fun q hq => ?_, fun db₂ q hins hq => ?_⟩
  · simp [layer_area, h]
  · simp [layer_area, hl, hnil, rsum_nil]
  · cases hfind : findLayer db name with
    | none => simp [layer_area, hfind] at hq
    | some l =>
      simp only [layer_area, hfind, ApiResult.ok.injEq] at hq
      subst hq
      exact rsum_nonneg _ (by
        intro x hx
        rw [List.mem_map] at hx
        obtain ⟨f, _, hf⟩ := hx
        rw [← hf]
        exact hpos _)
  · cases hfindIns : findLayer db layer with
    | none => simp [insert_feature, hfindIns] at hins
    | some lIns =>
      simp only [insert_feature, hfindIns, ApiResult.ok.injEq] at hins
      cases hfind : findLayer db name with
      | none => simp [layer_area, hfind] at hq
      | some l =>
        simp only [layer_area, hfind, ApiResult.ok.injEq] at hq
        have hfind₂ : findLayer db₂ name = some l := by
          rw [← hins]; exact hfind
        refine ⟨rsum ((db₂.features.filter (fun f => f.layer_id == l.id)).map
          (fun f => area f.geom_wkt)), by simp [layer_area, hfind₂], ?_⟩
        rw [← hq, ← hins]
        simp only [List.filter_append, List.map_append, rsum_append]
        have : 0 ≤ rsum ((List.filter (fun f => f.layer_id == l.id)
            [(⟨lIns.id, geom⟩ : Feature)]).map (fun f => area f.geom_wkt)) := by
          refine rsum_nonneg _ ?_
          intro x hx
          rw [List.mem_map] at hx
          obtain ⟨f, _, hf⟩ := hx
          rw [← hf]
          exact hpos _
        linarith

def exC6Db : FeatureDb := ⟨[⟨1, "ports"⟩], [⟨1, "POLYGON A"⟩]⟩

/-- A stand-in geodesic area measure satisfying the nonnegativity contract. -/
def exArea : String → ℚ := fun _ => 7

/-- The store after inserting "POLYGON B" into "ports". -/
def exC6Db2 : FeatureDb := ⟨[⟨1, "ports"⟩], [⟨1, "POLYGON A"⟩, ⟨1, "POLYGON B"⟩]⟩

/-- C6, witness for `layer_area_monotone`: on a concrete store, the unknown
layer gives 404 and inserting a feature into "ports" does not decrease its
total area (7 before the insert). -/
theorem layer_area_monotone_witness :
    layer_area exArea exC6Db "missing" = .httpError 404 ∧
    (∃ q₂, layer_area exArea exC6Db2 "ports" = .ok q₂ ∧ (7 : ℚ) ≤ q₂) := by
  have hpos : ∀ g, 0 ≤ exArea g := fun _ => by norm_num [exArea]
  constructor
  · exact (layer_area_monotone exArea exC6Db "missing" "ports" "POLYGON B" hpos).1
      (by decide)
  · have hins : insert_feature exC6Db "ports" "POLYGON B" = .ok exC6Db2 := by decide
    have hq : layer_area exArea exC6Db "ports" = .ok 7 := by
      simp [layer_area, findLayer, exC6Db, exArea, rsum]
    exact (layer_area_monotone exArea exC6Db "ports" "ports" "POLYGON B" hpos).2.2.2
      exC6Db2 7 hins hq

/-! ## Layer creation (`create_layer`, `apps/api/main.py` lines 128-138) -/

/-- Modelled from the spec: the `gd.layers` DDL is not under `src/`; §3 of
the spec declares `Layer.name` globally unique, so the database `INSERT ...
VALUES` raises a duplicate-key (unique-constraint) error when the name
already exists and otherwise commits a row with a fresh serial id. -/
def db_insert_layer (db : FeatureDb) (name : String) : Except DbErr FeatureDb :=
  if db.layers.any (fun l => l.name == name) then
    .error (.queryFailed "duplicate key value violates unique constraint")
  else
    .ok ⟨db.layers ++ [⟨(db.layers.map Layer.id).foldr max 0 + 1, name⟩], db.features⟩

/-- `POST /layers/{name}` (`create_layer`): the handler runs the bare
`INSERT` with no duplicate check and no `try/except` (only a `finally`
closing the connection), so a duplicate-key raise escapes the handler and
surfaces as the undistinguished internal error of the framework; on a fresh name
it answers ok. -/
def create_layer (db : FeatureDb) (name : String) : ApiResult FeatureDb :=
  match db_insert_layer db name with
  | .ok db₂ => .ok db₂
  | .error _ => .internalError

/-- A response is a caller-visible request failure with a distinguishing
status exactly when it is a raised `HTTPException` (spec §7 propagation
policy wording). -/
def isDistinguishedFailure {α : Type} : ApiResult α → Bool
  | .httpError _ => true
  | _ => false

def exC8Db : FeatureDb := ⟨[⟨1, "ports"⟩], []⟩

/-- C8, counterexample: creating the already-existing layer "ports" makes
`create_layer` surface the duplicate-key raise as the undistinguished
internal error, not as a request failure with a distinguishing status —
unlike `layer_area` on an unknown layer, which does raise a distinguishing
404. -/
theorem create_layer_duplicate_counterexample :
    create_layer exC8Db "ports" = .internalError ∧
    isDistinguishedFailure (create_layer exC8Db "ports") = false ∧
    isDistinguishedFailure (layer_area exArea exC8Db "missing") = true := by
  refine ⟨rfl, rfl, rfl⟩

/-- C8 (amended): creating a layer whose name already exists fails — the
underlying insert raises a duplicate-key error — but that failure surfaces
as an undistinguished internal error rather than a distinguishing status;
creating a fresh name succeeds and appends the layer. -/
theorem create_layer_spec (db : FeatureDb) (name : String) :
    (db.layers.any (fun l => l.name == name) = true →
      create_layer db name = .internalError ∧
      isDistinguishedFailure (create_layer db name) = false) ∧
    (db.layers.any (fun l => l.name == name) = false →
      ∃ db₂, create_layer db name = .ok db₂ ∧
        db₂.layers.map Layer.name = db.layers.map Layer.name ++ [name] ∧
        db₂.features = db.features) := by
  constructor
  · intro h
    constructor <;> simp [create_layer, db_insert_layer, h, isDistinguishedFailure]
  · intro h
    refine ⟨⟨db.layers ++ [⟨(db.layers.map Layer.id).foldr max 0 + 1, name⟩],
      db.features⟩, ?_, ?_, rfl⟩
    · simp [create_layer, db_insert_layer, h]
    · simp

/-- C8, witness for `create_layer_spec`: on a store holding only "ports",
creating "ports" again yields the internal error and creating "docks"
succeeds. -/
theorem create_layer_spec_witness :
    (create_layer exC8Db "ports" = .internalError ∧
      isDistinguishedFailure (create_layer exC8Db "ports") = false) ∧
    (∃ db₂, create_layer exC8Db "docks" = .ok db₂ ∧
      db₂.layers.map Layer.name = exC8Db.layers.map Layer.name ++ ["docks"] ∧
      db₂.features = exC8Db.features) :=
  ⟨(create_layer_spec exC8Db "ports").1 (by decide),
   (create_layer_spec exC8Db "docks").2 (by decide)⟩

/-! ## Ingest Gateway (`subscriber` / `on_message`, `apps/ingest/ingest.py`
lines 33-53) -/

/-- The result of `json.loads(msg.payload.decode("utf-8"))`: either a raise
(malformed payload) or a decoded object whose fields are read with `.get`,
so an absent key gives `None`. -/
inductive Payload
  | malformed (raw : String)
  | decoded (sensor_id : Option String) (value : Option ℚ) (ts : Option ℤ)
deriving DecidableEq

/-- One incoming MQTT message, together with whether the storage `INSERT`
raises on it (external database failure injection). -/
structure IngestMsg where
  payload : Payload
  insertFails : Bool
deriving DecidableEq

/-- A row of `gd.timeseries` as the Gateway writes it:
`to_timestamp(NULL)` is `NULL`, so every column is optional. -/
structure TsRow where
  time : Option ℤ
  sensor_id : Option String
  value : Option ℚ
deriving DecidableEq

/-- What happened to one message: `json.loads` raised (handled locally,
nothing written), or the `INSERT` was attempted with the given row and
either committed or rolled back. -/
inductive MsgOutcome
  | decodeFailure
  | writeAttempted (r : TsRow) (committed : Bool)
deriving DecidableEq

/-- The `on_message` callback: decode, `INSERT`, `commit()`; any exception
(decode or storage) is caught by the `except` clause, which calls
`conn.rollback()` — undoing at most the one uncommitted record — and
returns, leaving the subscription alive.  There is no retry and no
deduplication. -/
def on_message (db : List TsRow) (m : IngestMsg) : List TsRow × MsgOutcome :=
  match m.payload with
  | .malformed _ => (db, .decodeFailure)
  | .decoded s v t =>
    let r : TsRow := ⟨t, s, v⟩
    if m.insertFails then (db, .writeAttempted r false)
    else (db ++ [r], .writeAttempted r true)

/-- The blocking receive loop (`client.loop_forever()`): messages are
handled strictly one at a time in arrival order; the loop function is total,
so no message terminates the subscription. -/
def runLoop (db : List TsRow) (msgs : List IngestMsg) : List TsRow :=
  msgs.foldl (fun d m => (on_message d m).1) db

/-- C3: a message that fails to decode leaves the store untouched, is
recorded as a handled decode failure, and the loop goes on to process the
remaining messages — in particular a malformed message immediately followed
by a valid one results in the valid one being persisted; and when the
storage write fails, exactly that one record is rolled back (the store is
unchanged), the write is not retried, and the loop continues with the rest. -/
theorem ingest_error_isolation (db : List TsRow) (raw : String) (b : Bool)
    (s : Option String) (v : Option ℚ) (t : Option ℤ) (rest : List IngestMsg) :
    runLoop db (⟨.malformed raw, b⟩ :: rest) = runLoop db rest ∧
    on_message db ⟨.malformed raw, b⟩ = (db, .decodeFailure) ∧
    runLoop db (⟨.malformed raw, b⟩ :: ⟨.decoded s v t, false⟩ :: rest) =
      runLoop (db ++ [⟨t, s, v⟩]) rest ∧
    on_message db ⟨.decoded s v t, false⟩ =
      (db ++ [⟨t, s, v⟩], .writeAttempted ⟨t, s, v⟩ true) ∧
    runLoop db (⟨.decoded s v t, true⟩ :: rest) = runLoop db rest ∧
    on_message db ⟨.decoded s v t, true⟩ = (db, .writeAttempted ⟨t, s, v⟩ false) :=
  ⟨rfl, rfl, rfl, rfl, rfl, rfl⟩

/-- C10: a message whose payload is valid JSON but lacks the `ts` field is
not rejected as a decode failure — no field-presence validation happens
before the write — and the `INSERT` is attempted with a `NULL` timestamp
(`to_timestamp(NULL)`), not with the ingestion wall-clock time: the `time`
column of the row is `none`. -/
theorem ingest_missing_ts_null_write (db : List TsRow) (s : String) (v : ℚ)
    (b : Bool) :
    on_message db ⟨.decoded (some s) (some v) none, b⟩ =
      ((if b then db else db ++ [⟨none, some s, some v⟩]),
        .writeAttempted ⟨none, some s, some v⟩ (!b)) ∧
    (on_message db ⟨.decoded (some s) (some v) none, b⟩).2 =
      .writeAttempted ⟨none, some s, some v⟩ (!b) ∧
    (⟨none, some s, some v⟩ : TsRow).time = none := by
  cases b <;> exact ⟨rfl, rfl, rfl⟩

/-! ## External collectors (`apps/nasa_service/nasa_service.py`,
`apps/esa_lima_service/esa_lima_service.py`) -/

/-- The environment of one collection cycle: the batch of normalized data points
the fetch/generate steps produce, and `failsAt = some k` when the `k`-th
`INSERT` of the store loop raises (rows before it stay committed, since
each `execute` commits on its own connection). -/
structure CollectCycle where
  batch : List Obs
  failsAt : Option ℕ

/-- `store_data_points` / `store_esa_data` / `store_lima_data`: insert the
batch row by row; a raise at row `k` leaves the first `k` rows persisted and
propagates.  The `Bool` reports whether a raise happened. -/
def store_data_points (db : List Obs) (batch : List Obs)
    (failsAt : Option ℕ) : List Obs × Bool :=
  match failsAt with
  | none => (db ++ batch, false)
  | some k => (db ++ batch.take k, true)

/-- `fetch_and_store_all_data` (nasa_service lines 227-245, esa_lima lines
327-345): the whole body sits in `try/except Exception`, whose handler only
logs; the function therefore always returns normally — its result type has
no error channel.  The flag reports whether an error was logged, the list is
the store content afterwards (already-persisted rows of the abandoned
cycle stay). -/
def fetch_and_store_all_data (db : List Obs) (c : CollectCycle) : List Obs × Bool :=
  store_data_points db c.batch c.failsAt

/-- One iteration of `main` in the NASA service (lines 247-257): the `try`
block runs `fetch_and_store_all_data` and then sleeps 3600 s; the `except`
branch would sleep only 300 s, but since the tried call is total the `.ok`
arm is always taken.  Returns the store content and the seconds slept. -/
def nasa_main_step (db : List Obs) (c : CollectCycle) : List Obs × ℤ :=
  match (Except.ok (fetch_and_store_all_data db c) : Except String (List Obs × Bool)) with
  | .ok (db₂, _) => (db₂, 3600)
  | .error _ => (db, 300)

/-- One iteration of `main` in the ESA/Lima service (lines 347-357):
cadence 7200 s, error backoff 600 s, same structure. -/
def esa_lima_main_step (db : List Obs) (c : CollectCycle) : List Obs × ℤ :=
  match (Except.ok (fetch_and_store_all_data db c) : Except String (List Obs × Bool)) with
  | .ok (db₂, _) => (db₂, 7200)
  | .error _ => (db, 600)

/-- C7: a cycle in which a step raises is abandoned with the error recorded
(rows already written stay), but the scheduler then sleeps the full normal
cadence — 3600 s for the hourly NASA collector and 7200 s for the
two-hourly ESA/Lima collector — exactly as after a successful cycle: the
shorter backoff branch (300 s / 600 s) is never taken, because
`fetch_and_store_all_data` catches every exception itself. -/
theorem collector_failed_cycle_waits_full_cadence (db batch : List Obs) (k : ℕ) :
    fetch_and_store_all_data db ⟨batch, some k⟩ = (db ++ batch.take k, true) ∧
    (nasa_main_step db ⟨batch, some k⟩).2 = 3600 ∧
    (esa_lima_main_step db ⟨batch, some k⟩).2 = 7200 ∧
    fetch_and_store_all_data db ⟨batch, none⟩ = (db ++ batch, false) ∧
    (nasa_main_step db ⟨batch, none⟩).2 = 3600 ∧
    (esa_lima_main_step db ⟨batch, none⟩).2 = 7200 :=
  ⟨rfl, rfl, rfl, rfl, rfl, rfl⟩

end Gemelo
